import Mathlib

/-!
Verification development for the AstroPI ground-track speed estimator
(`main.py`).  The Python source is shallowly embedded here:

* Python floats are modelled as exact reals (`ℝ`); the capture scheduler's
  sizes and clock instants, which only undergo comparison and addition, are
  modelled as rationals (`ℚ`) so that the scheduler stays computable.
* Fallible Python code (a raised exception) is modelled with `Except PyErr`;
  in particular Python's `/` raises `ZeroDivisionError` when the divisor is
  zero, which the embedding makes explicit.
* External collaborators (the PiCamera device, the filesystem clock, the
  EXIF metadata reader) are modelled as explicit oracles passed to the
  embedded functions, so the embedded code stays deterministic.
-/

/-- A Python exception escaping an embedded function. -/
inductive PyErr where
  /-- `ZeroDivisionError`: raised by `/` when the divisor equals zero. -/
  | zeroDivisionError
  /-- `UnboundLocalError` (a `NameError`): a local variable referenced
  before assignment. -/
  | nameError
  /-- any device-level exception raised by the PiCamera driver. -/
  | deviceError
deriving DecidableEq, Repr

/-! ## EXIF metadata model

`extract_coordinates_and_timestamp` reads `exif_data[0x8825]` (the GPS IFD)
and `exif_data[0x9003]` (`DateTimeOriginal`).  Per the EXIF 2.3 standard the
GPS IFD is keyed by numeric tags: tag 1 = `GPSLatitudeRef` (`'N'`/`'S'`),
tag 2 = `GPSLatitude` (a degree/minute/second triple), tag 3 =
`GPSLongitudeRef` (`'E'`/`'W'`), tag 4 = `GPSLongitude`.  The fields below
carry those tag numbers so that the embedding of the Python subscripts
`gps_info[1] … gps_info[4]` is literal. -/

/-- A degree/minute/second triple as stored in `GPSLatitude`/`GPSLongitude`.
EXIF stores rationals; the Python code manipulates them as floats, modelled
as exact reals. -/
structure DMS where
  deg : ℝ
  minutes : ℝ
  seconds : ℝ

/-- The GPS IFD (`exif_data[0x8825]`), keyed by EXIF 2.3 GPS tag number. -/
structure GPSInfo where
  /-- tag 1, `GPSLatitudeRef`: `'N'` or `'S'`. -/
  tag1 : Char
  /-- tag 2, `GPSLatitude`. -/
  tag2 : DMS
  /-- tag 3, `GPSLongitudeRef`: `'E'` or `'W'`. -/
  tag3 : Char
  /-- tag 4, `GPSLongitude`. -/
  tag4 : DMS

/-- The embedded metadata of one image, as far as the program reads it.
`gpsInfo` is `none` when key `0x8825` is absent.  `dateTimeOriginal` is the
key-`0x9003` timestamp already parsed into an instant (seconds on a global
axis); it is `none` when the key is absent or its textual value does not
match the fixed `%Y:%m:%d %H:%M:%S` pattern (either way the Python code
returns `None`). -/
structure ExifData where
  gpsInfo : Option GPSInfo
  dateTimeOriginal : Option ℝ

/-- The metadata reader collaborator: what `Image.open(p)._getexif()`
yields for a path `p`.  `none` models an unreadable file or absent EXIF
block (in Python both end in the broad `except` returning `None`). -/
def ExifReader : Type := String → Option ExifData

/-! ## GeoTagExtractor (`extract_coordinates_and_timestamp`) -/

/-- Embeds lines 91–116 of `main.py`.  Returns
`(latitude, longitude, timestamp)` in decimal degrees / seconds, or `none`
on any missing or malformed field (the Python function returns `None` from
its `else` branch or its `except` handler). -/
noncomputable def extract_coordinates_and_timestamp (readExif : ExifReader)
    (image_path : String) : Option (ℝ × ℝ × ℝ) :=
  match readExif image_path with
  | none => none
  | some exif_data =>
    match exif_data.gpsInfo, exif_data.dateTimeOriginal with
    | some gps_info, some timestamp =>
      -- latitude = gps_info[2][0] + gps_info[2][1]/60 + gps_info[2][2]/3600
      let latitude := gps_info.tag2.deg + gps_info.tag2.minutes / 60 +
        gps_info.tag2.seconds / 3600
      -- longitude = gps_info[4][0] + gps_info[4][1]/60 + gps_info[4][2]/3600
      let longitude := gps_info.tag4.deg + gps_info.tag4.minutes / 60 +
        gps_info.tag4.seconds / 3600
      -- if gps_info[3] == 'S': latitude = -latitude
      let latitude := if gps_info.tag3 = 'S' then -latitude else latitude
      -- if gps_info[1] == 'W': longitude = -longitude
      let longitude := if gps_info.tag1 = 'W' then -longitude else longitude
      some (latitude, longitude, timestamp)
    | _, _ => none

/-! ## DistanceSpeedCalculator (`haversine_distance`, `calculate_speed`) -/

/-- `math.atan2 y x`: the two-argument arctangent, with the quadrant
conventions of the C library function used by Python. -/
noncomputable def arctan2 (y x : ℝ) : ℝ :=
  if 0 < x then Real.arctan (y / x)
  else if x < 0 ∧ 0 ≤ y then Real.arctan (y / x) + Real.pi
  else if x < 0 ∧ y < 0 then Real.arctan (y / x) - Real.pi
  else if x = 0 ∧ 0 < y then Real.pi / 2
  else if x = 0 ∧ y < 0 then -(Real.pi / 2)
  else 0

/-- `math.radians x = x * π / 180`. -/
noncomputable def radians (x : ℝ) : ℝ := x * (Real.pi / 180)

/-- Embeds lines 119–148 of `main.py`: the haversine central angle on the
composite radius (Earth mean radius 6378.137 km plus the assumed 400 km
platform altitude). -/
noncomputable def haversine_distance (lat1 lon1 lat2 lon2 : ℝ) : ℝ :=
  let radius_of_earth : ℝ := 6378.137
  let mean_distance_from_iss_earth : ℝ := 400
  let radius_from_centre_of_earth_to_iss : ℝ :=
    radius_of_earth + mean_distance_from_iss_earth
  let rlat1 := radians lat1
  let rlon1 := radians lon1
  let rlat2 := radians lat2
  let rlon2 := radians lon2
  let dlat := rlat2 - rlat1
  let dlon := rlon2 - rlon1
  let a := Real.sin (dlat / 2) ^ 2 +
    Real.cos rlat1 * Real.cos rlat2 * Real.sin (dlon / 2) ^ 2
  let c := 2 * arctan2 (Real.sqrt a) (Real.sqrt (1 - a))
  radius_from_centre_of_earth_to_iss * c

/-- Embeds lines 151–167 of `main.py`.  `time_difference` is the
`timedelta` operand in seconds (`total_seconds()`).  Python's
`distance / time_in_seconds` raises `ZeroDivisionError` when
`time_in_seconds == 0`, so the embedding returns `Except`. -/
noncomputable def calculate_speed (distance time_difference : ℝ) :
    Except PyErr ℝ :=
  let time_in_seconds := time_difference
  if time_in_seconds = 0 then Except.error PyErr.zeroDivisionError
  else Except.ok |distance / time_in_seconds|

/-! ## CaptureScheduler (`capture_images`)

The device, clock and filesystem are oracles in `CaptureEnv`.  Sizes are in
MB and instants in seconds, both as `ℚ` so the scheduler is computable. -/

/-- The external world seen by one run of `capture_images`. -/
structure CaptureEnv where
  /-- does `PiCamera()` succeed? -/
  acquire_ok : Bool
  /-- does configuring resolution/framerate/exposure/awb succeed? -/
  config_ok : Bool
  /-- `datetime.now()` at session start (line 36). -/
  start_time : ℚ
  /-- `datetime.now()` at the top of the k-th loop iteration (line 40). -/
  shot_time : ℕ → ℚ
  /-- outcome of the k-th `camera.capture` + `os.path.getsize`:
  `none` = a device-level exception, `some s` = a file of `s` MB. -/
  shot_size : ℕ → Option ℚ

/-- The image file name derived deterministically from the capture instant
(line 41: the prefix image_ followed by a strftime rendering of the
timestamp and the suffix .jpg); the strftime rendering of the instant is
abstracted to `toString`. -/
def image_file_name (image_path : String) (timestamp : ℚ) : String :=
  image_path ++ "/image_" ++ toString timestamp ++ ".jpg"

/-- How control left `capture_images`. -/
inductive CapExit where
  /-- `return images, timestamps` (line 61). -/
  | normal (images : List String) (timestamps : List ℚ)
  /-- `return None, None` from the `except` handler (line 65). -/
  | sentinel
  /-- an exception escaped the function. -/
  | uncaught (e : PyErr)
deriving DecidableEq

/-- Result of `capture_images` plus the device-resource facts needed by the
release obligation. -/
structure CapOutcome where
  exit : CapExit
  /-- `PiCamera()` completed, so a device is held. -/
  acquired : Bool
  /-- `camera.close()` ran on a bound `camera`. -/
  released : Bool
deriving DecidableEq

/-- The `while` loop of lines 38–59.  `k` counts iterations (indexing the
clock and device oracles), `images`/`timestamps`/`total_storage_size` are
the loop's accumulators.  A device failure during an iteration takes the
`except` path, i.e. exits with `CapExit.sentinel`. -/
def capture_loop (env : CaptureEnv) (image_path : String)
    (max_storage_size : ℚ) (max_images : ℕ) (max_capture_duration : ℚ)
    (k : ℕ) (images : List String) (timestamps : List ℚ)
    (total_storage_size : ℚ) : CapExit :=
  if _h : total_storage_size < max_storage_size ∧
      images.length < max_images then
    let timestamp := env.shot_time k
    let image_file := image_file_name image_path timestamp
    match env.shot_size k with
    | none => CapExit.sentinel
    | some size =>
      let images' := images ++ [image_file]
      let timestamps' := timestamps ++ [timestamp]
      let total' := total_storage_size + size
      -- if (timestamp - start_time).total_seconds() > max_capture_duration: break
      if timestamp - env.start_time > max_capture_duration then
        CapExit.normal images' timestamps'
      else
        capture_loop env image_path max_storage_size max_images
          max_capture_duration (k + 1) images' timestamps' total'
  else
    CapExit.normal images timestamps
termination_by max_images - images.length
decreasing_by
  simp only [List.length_append, List.length_cons, List.length_nil]
  omega

/-- Embeds lines 24–68 of `main.py`.  Note the acquisition
(`camera = PiCamera()`) happens inside the `try`, while the `finally`
unconditionally runs `camera.close()`: when acquisition itself fails the
`except` handler's `return None, None` is displaced by the
`UnboundLocalError` the `finally` block raises on the unbound name
`camera`, and nothing was acquired or released. -/
def capture_images (env : CaptureEnv) (image_path : String)
    (max_storage_size : ℚ) (max_images : ℕ) (max_capture_duration : ℚ) :
    CapOutcome :=
  if env.acquire_ok = false then
    { exit := CapExit.uncaught PyErr.nameError,
      acquired := false, released := false }
  else if env.config_ok = false then
    { exit := CapExit.sentinel, acquired := true, released := true }
  else
    { exit := capture_loop env image_path max_storage_size max_images
        max_capture_duration 0 [] [] 0,
      acquired := true, released := true }

/-! ## Retention cleanup (lines 233–235 of `main.py`) -/

/-- Embeds `while len(images) > 42: os.remove(images.pop(0))`.  Returns the
images kept and the images deleted, the latter in deletion order. -/
def retention_cleanup : List String → List String × List String
  | [] => ([], [])
  | x :: rest =>
    if (x :: rest).length > 42 then
      let p := retention_cleanup rest
      (p.1, x :: p.2)
    else
      (x :: rest, [])

/-! ## AggregationCorrector (lines 182–235 of `main.py`) -/

/-- One element of `speed_data`:
`[images[i-1], images[i], distance, time_difference.total_seconds(), speed]`. -/
structure SpeedEntry where
  imageA : String
  imageB : String
  distance : ℝ
  duration : ℝ
  speed : ℝ

/-- One line of the output artifact, as handed to the external sink:
`file.write(f"{avg_speed:.2f} km/s\n")` renders `value` at
`decimalPlaces` decimal places followed by the unit suffix.  The textual
rendering itself is file-I/O mechanics, outside the core. -/
structure OutputLine where
  value : ℝ
  decimalPlaces : ℕ
  unitSuffix : String

/-- Embeds `log_average_speed_to_txt` (lines 170–179): opening with mode
`'w'` truncates, so the artifact's whole content is this single line. -/
noncomputable def log_average_speed_to_txt (avg_speed : ℝ) :
    List OutputLine :=
  [{ value := avg_speed, decimalPlaces := 2, unitSuffix := "km/s" }]

open Classical in
/-- The body of the `for` loop of lines 193–219 for one consecutive pair
`(prev, cur) = (images[i-1], images[i])`: `Except.ok none` when the pair is
skipped, `Except.ok (some entry)` when a `speed_data` entry is appended. -/
noncomputable def process_pair (readExif : ExifReader) (prev cur : String) :
    Except PyErr (Option SpeedEntry) :=
  match extract_coordinates_and_timestamp readExif prev,
      extract_coordinates_and_timestamp readExif cur with
  | some (latitude1, longitude1, timestamp1),
    some (latitude2, longitude2, timestamp2) =>
    if prev = cur ∨
        haversine_distance latitude1 longitude1 latitude2 longitude2 = 0 ∨
        timestamp2 - timestamp1 = 0 then
      Except.ok none
    else
      let distance :=
        haversine_distance latitude1 longitude1 latitude2 longitude2
      let time_difference := timestamp2 - timestamp1
      match calculate_speed distance time_difference with
      | Except.error e => Except.error e
      | Except.ok speed =>
        Except.ok (some { imageA := prev, imageB := cur,
                          distance := distance,
                          duration := time_difference,
                          speed := speed })
  | _, _ => Except.ok none

/-- The whole `for i in range(1, len(images))` loop: processes consecutive
pairs in order, accumulating `speed_data`; an exception in an iteration
aborts the loop (and `main`). -/
noncomputable def build_speed_data (readExif : ExifReader) :
    List String → Except PyErr (List SpeedEntry)
  | a :: b :: rest =>
    match process_pair readExif a b with
    | Except.error e => Except.error e
    | Except.ok none => build_speed_data readExif (b :: rest)
    | Except.ok (some entry) =>
      match build_speed_data readExif (b :: rest) with
      | Except.error e => Except.error e
      | Except.ok l => Except.ok (entry :: l)
  | _ => Except.ok []

/-- What is observable of one `main` run after the capture stage. -/
structure SessionOutcome where
  /-- content of `result.txt`; `none` when it was never written. -/
  artifact : Option (List OutputLine)
  /-- images remaining after retention cleanup. -/
  kept : List String
  /-- images deleted by retention cleanup, oldest first. -/
  deleted : List String
deriving Inhabited

/-- Embeds `main` (lines 188–235) from the point where `capture_images`
has returned.  `images?`/`timestamps?` model the two returned values
(`none` is Python `None`); `if images and timestamps:` is false for `None`
and for empty lists alike.  `avg_speed = sum(...) / len(speed_data)`
raises `ZeroDivisionError` when `speed_data` is empty. -/
noncomputable def main_pipeline (readExif : ExifReader)
    (images? : Option (List String)) (timestamps? : Option (List ℚ)) :
    Except PyErr SessionOutcome :=
  match images?, timestamps? with
  | some images, some timestamps =>
    if images = [] ∨ timestamps = [] then
      Except.ok { artifact := none, kept := images, deleted := [] }
    else
      match build_speed_data readExif images with
      | Except.error e => Except.error e
      | Except.ok speed_data =>
        if speed_data.length = 0 then
          Except.error PyErr.zeroDivisionError
        else
          let avg_speed := (speed_data.map SpeedEntry.speed).sum /
            (speed_data.length : ℝ)
          let haversine_error_correction_percentage : ℝ := 0.05
          let error_corrected_average_speed :=
            avg_speed * (1 + haversine_error_correction_percentage)
          let artifact :=
            log_average_speed_to_txt error_corrected_average_speed
          let cleaned := retention_cleanup images
          Except.ok { artifact := some artifact,
                      kept := cleaned.1, deleted := cleaned.2 }
  | _, _ =>
    Except.ok { artifact := none,
                kept := images?.getD [], deleted := [] }

/-! ## Concrete fixtures

Closed inputs used by the witness and counterexample-evaluation theorems
below.  `fs0` is a two-image session with distinct coordinates, `fs1` a
two-image session whose images carry identical coordinates, `exifSouth` an
image geotagged in the southern hemisphere. -/

/-- EXIF of an image at latitude 10 deg 30 min South, longitude 20 deg East
(`GPSLatitudeRef`, tag 1, is `'S'`), captured at instant 5. -/
noncomputable def exifSouth : ExifData :=
  { gpsInfo := some { tag1 := 'S', tag2 := ⟨10, 30, 0⟩,
                      tag3 := 'E', tag4 := ⟨20, 0, 0⟩ },
    dateTimeOriginal := some 5 }

/-- A reader under which every image carries `exifSouth`. -/
noncomputable def fsSouth : ExifReader := fun _ => some exifSouth

/-- EXIF at (0°, 0°), instant 0. -/
noncomputable def exifA : ExifData :=
  { gpsInfo := some { tag1 := 'N', tag2 := ⟨0, 0, 0⟩,
                      tag3 := 'E', tag4 := ⟨0, 0, 0⟩ },
    dateTimeOriginal := some 0 }

/-- EXIF at (0°, 180°), instant 10. -/
noncomputable def exifB : ExifData :=
  { gpsInfo := some { tag1 := 'N', tag2 := ⟨0, 0, 0⟩,
                      tag3 := 'E', tag4 := ⟨180, 0, 0⟩ },
    dateTimeOriginal := some 10 }

/-- Reader for the distinct-coordinate session `["a.jpg", "b.jpg"]`. -/
noncomputable def fs0 : ExifReader := fun p =>
  if p = "a.jpg" then some exifA
  else if p = "b.jpg" then some exifB
  else none

/-- EXIF at (10°, 20°), instant 0. -/
noncomputable def exifC : ExifData :=
  { gpsInfo := some { tag1 := 'N', tag2 := ⟨10, 0, 0⟩,
                      tag3 := 'E', tag4 := ⟨20, 0, 0⟩ },
    dateTimeOriginal := some 0 }

/-- EXIF at (10°, 20°) again (identical coordinates), instant 5. -/
noncomputable def exifD : ExifData :=
  { gpsInfo := some { tag1 := 'N', tag2 := ⟨10, 0, 0⟩,
                      tag3 := 'E', tag4 := ⟨20, 0, 0⟩ },
    dateTimeOriginal := some 5 }

/-- Reader for the identical-coordinate session `["c.jpg", "d.jpg"]`. -/
noncomputable def fs1 : ExifReader := fun p =>
  if p = "c.jpg" then some exifC
  else if p = "d.jpg" then some exifD
  else none

/-- The single `speed_data` entry the `fs0` session produces. -/
noncomputable def entry0 : SpeedEntry :=
  { imageA := "a.jpg", imageB := "b.jpg",
    distance := haversine_distance 0 0 0 180,
    duration := 10,
    speed := |haversine_distance 0 0 0 180 / 10| }

/-- A capture environment whose device acquisition (`PiCamera()`) fails. -/
def envAcqFail : CaptureEnv :=
  { acquire_ok := false, config_ok := true, start_time := 0,
    shot_time := fun _ => 0, shot_size := fun _ => some 1 }

/-- A healthy capture environment: acquisition and configuration succeed,
the clock advances by one second per observation, every shot produces a
1 MB file. -/
def envHealthy : CaptureEnv :=
  { acquire_ok := true, config_ok := true, start_time := 0,
    shot_time := fun k => (k : ℚ) + 1, shot_size := fun _ => some 1 }

/-! ## Helper lemmas -/

/-- Identical coordinates give a zero central angle, hence zero distance. -/
theorem haversine_distance_self (lat lon : ℝ) :
    haversine_distance lat lon lat lon = 0 := by
  simp [haversine_distance, arctan2, radians]

/-- The distance from (0°, 0°) to (0°, 180°) is half the composite-radius
great circle. -/
theorem haversine_distance_antipode :
    haversine_distance 0 0 0 180 = 6778.137 * Real.pi := by
  have h1 : (0 : ℝ) * (Real.pi / 180) = 0 := by ring
  have h2 : (180 : ℝ) * (Real.pi / 180) = Real.pi := by ring
  simp only [haversine_distance, radians]
  rw [h1, h2]
  norm_num [Real.sin_pi_div_two, Real.cos_zero, Real.sin_zero]
  norm_num [arctan2, Real.pi_pos]
  ring

/-- That distance is nonzero. -/
theorem haversine_distance_antipode_ne :
    haversine_distance 0 0 0 180 ≠ 0 := by
  rw [haversine_distance_antipode]
  exact mul_ne_zero (by norm_num) Real.pi_ne_zero

/-! ## Claim theorems -/

/-- **C6**: for every distance `d` and nonzero duration `t`,
`calculate_speed d t` returns `|d / t|`, which is nonnegative whatever the
signs of `d` and `t`. -/
theorem calculate_speed_abs_nonneg (d t : ℝ) (h : t ≠ 0) :
    calculate_speed d t = Except.ok |d / t| ∧ 0 ≤ |d / t| :=
  ⟨by simp [calculate_speed, h], abs_nonneg _⟩

/-- Witness for `calculate_speed_abs_nonneg` at `d = 0`, `t = 2`. -/
theorem calculate_speed_abs_nonneg_witness :
    (2 : ℝ) ≠ 0 ∧ calculate_speed 0 2 = Except.ok |(0 : ℝ) / 2| ∧
      0 ≤ |(0 : ℝ) / 2| :=
  ⟨two_ne_zero, (calculate_speed_abs_nonneg 0 2 two_ne_zero).1,
    (calculate_speed_abs_nonneg 0 2 two_ne_zero).2⟩

/-- **C7**: for every distance `d`, `calculate_speed d 0` fails explicitly
with `ZeroDivisionError` rather than silently returning infinity or NaN. -/
theorem calculate_speed_zero_duration_error (d : ℝ) :
    calculate_speed d 0 = Except.error PyErr.zeroDivisionError := by
  simp [calculate_speed]

/-- **C9**: retention cleanup over `N` captured images deletes exactly
`max(0, N - 42)` images, the oldest first (the capture-order prefix),
keeping the newest (the capture-order suffix); in particular nothing is
deleted when `N ≤ 42`. -/
theorem retention_cleanup_oldest_first (images : List String) :
    (retention_cleanup images).1 = images.drop (images.length - 42) ∧
    (retention_cleanup images).2 = images.take (images.length - 42) ∧
    (retention_cleanup images).2.length = images.length - 42 := by
  induction images with
  | nil => simp [retention_cleanup]
  | cons x rest ih =>
    obtain ⟨ih1, ih2, ih3⟩ := ih
    by_cases h : (x :: rest).length > 42
    · have hrest : rest.length ≥ 42 := by
        simp only [List.length_cons] at h; omega
      have hx : (x :: rest).length - 42 = (rest.length - 42) + 1 := by
        simp only [List.length_cons]; omega
      simp only [retention_cleanup, if_pos h]
      refine ⟨?_, ?_, ?_⟩
      · rw [hx, List.drop_succ_cons]
        exact ih1
      · rw [hx, List.take_succ_cons, ih2]
      · simp only [List.length_cons, ih3]
        omega
    · have hx : (x :: rest).length - 42 = 0 := by
        simp only [List.length_cons] at h ⊢; omega
      simp only [retention_cleanup, if_neg h, hx]
      simp

/-- **C3** (counter-evaluation): when device acquisition (`PiCamera()`)
itself fails, `capture_images` does not return the `(None, None)` sentinel.
The `except` handler's return is displaced by the `finally` block, whose
`camera.close()` raises `UnboundLocalError` on the never-assigned local
`camera`; the exception escapes, and no release happens (nothing was
acquired).  So the release-and-sentinel contract fails on the acquisition
exit path. -/
theorem capture_acquire_failure_crashes :
    capture_images envAcqFail "dir" 250 42 480 =
      { exit := CapExit.uncaught PyErr.nameError,
        acquired := false, released := false } ∧
    (∀ imgs ts, CapExit.uncaught PyErr.nameError ≠ CapExit.normal imgs ts) ∧
    CapExit.uncaught PyErr.nameError ≠ CapExit.sentinel :=
  ⟨rfl, fun _ _ h => CapExit.noConfusion h, fun h => CapExit.noConfusion h⟩

/-- **C8**: with `max_capture_duration = 0`, positive storage and count
budgets, a successful first shot, and a clock that has advanced since the
session started, the capture loop stops after exactly one capture — the
duration check is evaluated only after a completed capture. -/
theorem capture_duration_zero_one_image (env : CaptureEnv) (p : String)
    (S : ℚ) (M : ℕ) (s : ℚ)
    (hacq : env.acquire_ok = true) (hcfg : env.config_ok = true)
    (hshot : env.shot_size 0 = some s)
    (hclock : env.shot_time 0 - env.start_time > 0)
    (hS : 0 < S) (hM : 0 < M) :
    capture_images env p S M 0 =
      { exit := CapExit.normal [image_file_name p (env.shot_time 0)]
          [env.shot_time 0],
        acquired := true, released := true } := by
  simp only [capture_images, hacq, hcfg, Bool.true_eq_false, if_false]
  rw [capture_loop, dif_pos ⟨hS, by simpa using hM⟩, hshot]
  simp only [if_pos hclock, List.nil_append]

/-- Witness for `capture_duration_zero_one_image` on `envHealthy`. -/
theorem capture_duration_zero_one_image_witness :
    envHealthy.acquire_ok = true ∧ envHealthy.config_ok = true ∧
    envHealthy.shot_size 0 = some 1 ∧
    envHealthy.shot_time 0 - envHealthy.start_time > 0 ∧
    (0 : ℚ) < 250 ∧ (0 : ℕ) < 42 ∧
    capture_images envHealthy "dir" 250 42 0 =
      { exit := CapExit.normal
          [image_file_name "dir" (envHealthy.shot_time 0)]
          [envHealthy.shot_time 0],
        acquired := true, released := true } :=
  ⟨rfl, rfl, rfl, by norm_num [envHealthy], by norm_num, by norm_num,
    capture_duration_zero_one_image envHealthy "dir" 250 42 1 rfl rfl rfl
      (by norm_num [envHealthy]) (by norm_num) (by norm_num)⟩

/-- **C10**: with `max_images = 0` or `max_storage_size ≤ 0` (and a healthy
device), the loop body never runs: `capture_images` returns two empty
lists, not the failure sentinel; and the pipeline treats `(([], []))` and
`(None, None)` identically — no extraction, no aggregation, no artifact,
no cleanup. -/
theorem zero_budget_no_session (env : CaptureEnv) (p : String) (S : ℚ)
    (M : ℕ) (D : ℚ) (readExif : ExifReader) (ts : List ℚ)
    (hacq : env.acquire_ok = true) (hcfg : env.config_ok = true)
    (h : M = 0 ∨ S ≤ 0) :
    capture_images env p S M D =
      { exit := CapExit.normal [] [], acquired := true, released := true } ∧
    main_pipeline readExif (some []) (some ts) =
      Except.ok { artifact := none, kept := [], deleted := [] } ∧
    main_pipeline readExif none none =
      Except.ok { artifact := none, kept := [], deleted := [] } := by
  have hguard : ¬((0 : ℚ) < S ∧ List.length ([] : List String) < M) := by
    rcases h with h | h
    · simp [h]
    · intro hc
      exact absurd hc.1 (not_lt.mpr h)
  refine ⟨?_, ?_, ?_⟩
  · simp only [capture_images, hacq, hcfg, Bool.true_eq_false, if_false]
    rw [capture_loop, dif_neg hguard]
  · simp [main_pipeline]
  · simp [main_pipeline]

/-- Witness for `zero_budget_no_session` on `envHealthy` with
`max_images = 0`. -/
theorem zero_budget_no_session_witness :
    envHealthy.acquire_ok = true ∧ envHealthy.config_ok = true ∧
    ((0 : ℕ) = 0 ∨ (250 : ℚ) ≤ 0) ∧
    capture_images envHealthy "dir" 250 0 480 =
      { exit := CapExit.normal [] [], acquired := true, released := true } ∧
    main_pipeline fs0 (some []) (some []) =
      Except.ok { artifact := none, kept := [], deleted := [] } ∧
    main_pipeline fs0 none none =
      Except.ok { artifact := none, kept := [], deleted := [] } :=
  ⟨rfl, rfl, Or.inl rfl,
    (zero_budget_no_session envHealthy "dir" 250 0 480 fs0 [] rfl rfl
      (Or.inl rfl)).1,
    (zero_budget_no_session envHealthy "dir" 250 0 480 fs0 [] rfl rfl
      (Or.inl rfl)).2.1,
    (zero_budget_no_session envHealthy "dir" 250 0 480 fs0 [] rfl rfl
      (Or.inl rfl)).2.2⟩

/-- **C1** (counter-evaluation): the fixture image's EXIF says latitude
10 deg 30 min *South* (`GPSLatitudeRef`, tag 1, is `'S'`), longitude 20 deg
East, with `DateTimeOriginal` present — yet extraction returns latitude
`+10.5`, not the `-10.5` the claim requires.  The code negates latitude
when tag 3 (`GPSLongitudeRef`, values `'E'`/`'W'`) equals `'S'` and
longitude when tag 1 (`GPSLatitudeRef`, values `'N'`/`'S'`) equals `'W'`:
the two hemisphere-reference checks are swapped and can never fire on
standard EXIF data. -/
theorem extract_ignores_south_latitude_ref :
    extract_coordinates_and_timestamp fsSouth "photo.jpg" =
      some (10.5, 20, 5) ∧
    exifSouth.gpsInfo = some { tag1 := 'S', tag2 := ⟨10, 30, 0⟩,
                               tag3 := 'E', tag4 := ⟨20, 0, 0⟩ } ∧
    (10.5 : ℝ) ≠ -(10.5 : ℝ) := by
  refine ⟨?_, rfl, by norm_num⟩
  show some _ = some ((10.5 : ℝ), (20 : ℝ), (5 : ℝ))
  norm_num
  exact ⟨by decide, by decide⟩

/-- Extraction on the first `fs0` image. -/
theorem extract_fs0_a :
    extract_coordinates_and_timestamp fs0 "a.jpg" = some (0, 0, 0) := by
  show some _ = some ((0 : ℝ), (0 : ℝ), (0 : ℝ))
  norm_num

/-- Extraction on the second `fs0` image. -/
theorem extract_fs0_b :
    extract_coordinates_and_timestamp fs0 "b.jpg" = some (0, 180, 10) := by
  show some _ = some ((0 : ℝ), (180 : ℝ), (10 : ℝ))
  norm_num
  decide

/-- Extraction on the first `fs1` image. -/
theorem extract_fs1_c :
    extract_coordinates_and_timestamp fs1 "c.jpg" = some (10, 20, 0) := by
  show some _ = some ((10 : ℝ), (20 : ℝ), (0 : ℝ))
  norm_num
  decide

/-- Extraction on the second `fs1` image. -/
theorem extract_fs1_d :
    extract_coordinates_and_timestamp fs1 "d.jpg" = some (10, 20, 5) := by
  show some _ = some ((10 : ℝ), (20 : ℝ), (5 : ℝ))
  norm_num
  decide

/-- The `fs0` pair produces exactly `entry0`. -/
theorem process_pair_fs0 :
    process_pair fs0 "a.jpg" "b.jpg" = Except.ok (some entry0) := by
  have hcs : calculate_speed (haversine_distance 0 0 0 180) 10 =
      Except.ok |haversine_distance 0 0 0 180 / 10| := by
    simp [calculate_speed]
  simp only [process_pair, extract_fs0_a, extract_fs0_b]
  simp [haversine_distance_antipode_ne, sub_zero, hcs, entry0]

/-- The `fs1` pair (identical coordinates) is skipped. -/
theorem process_pair_fs1 :
    process_pair fs1 "c.jpg" "d.jpg" = Except.ok none := by
  unfold process_pair
  rw [extract_fs1_c, extract_fs1_d]
  simp [haversine_distance_self]

/-- `speed_data` for the `fs0` session. -/
theorem build_fs0 :
    build_speed_data fs0 ["a.jpg", "b.jpg"] = Except.ok [entry0] := by
  simp only [build_speed_data, process_pair_fs0]

/-- `speed_data` for the identical-coordinate `fs1` session is empty. -/
theorem build_fs1 :
    build_speed_data fs1 ["c.jpg", "d.jpg"] = Except.ok [] := by
  simp only [build_speed_data, process_pair_fs1]

/-- If processing a pair appended an entry, the guard of line 203 was
false: the entry records distinct image paths, a nonzero distance and a
nonzero duration. -/
theorem process_pair_ok_some (readExif : ExifReader) (prev cur : String)
    (e : SpeedEntry)
    (h : process_pair readExif prev cur = Except.ok (some e)) :
    e.imageA ≠ e.imageB ∧ e.distance ≠ 0 ∧ e.duration ≠ 0 := by
  unfold process_pair at h
  split at h
  case _ lat1 lon1 t1 lat2 lon2 t2 heq1 heq2 =>
    split at h
    case isTrue => simp at h
    case isFalse hguard =>
      push_neg at hguard
      obtain ⟨hab, hdist, hdur⟩ := hguard
      have hcs : calculate_speed (haversine_distance lat1 lon1 lat2 lon2)
          (t2 - t1) = Except.ok
            |haversine_distance lat1 lon1 lat2 lon2 / (t2 - t1)| := by
        simp [calculate_speed, hdur]
      simp only [hcs, Except.ok.injEq, Option.some.injEq] at h
      subst h
      exact ⟨hab, hdist, hdur⟩
  case _ => simp at h

/-- Every entry of `speed_data` satisfies the pair invariant. -/
theorem build_speed_data_sound (readExif : ExifReader) :
    ∀ (imgs : List String) (sd : List SpeedEntry),
      build_speed_data readExif imgs = Except.ok sd →
      ∀ e ∈ sd,
        e.imageA ≠ e.imageB ∧ e.distance ≠ 0 ∧ e.duration ≠ 0 := by
  intro imgs
  induction imgs with
  | nil =>
    intro sd h e he
    simp only [build_speed_data, Except.ok.injEq] at h
    subst h
    simp at he
  | cons a rest ih =>
    cases rest with
    | nil =>
      intro sd h e he
      simp only [build_speed_data, Except.ok.injEq] at h
      subst h
      simp at he
    | cons b rest2 =>
      intro sd h e he
      simp only [build_speed_data] at h
      split at h
      case _ => simp at h
      case _ hpp => exact ih sd h e he
      case _ entry hpp =>
        split at h
        case _ => simp at h
        case _ l hbuild =>
          simp only [Except.ok.injEq] at h
          subst h
          rcases List.mem_cons.mp he with rfl | hmem
          · exact process_pair_ok_some readExif a b e hpp
          · exact ih l hbuild e hmem

/-- **C4**: a `speed_data` entry exists only for consecutive pairs with
distinct images, nonzero haversine distance and nonzero timestamp
difference; identical coordinates give haversine distance exactly 0, and
such a pair is excluded (the loop `continue`s without appending). -/
theorem speed_sample_invariant :
    (∀ (readExif : ExifReader) (imgs : List String) (sd : List SpeedEntry)
        (e : SpeedEntry), build_speed_data readExif imgs = Except.ok sd →
        e ∈ sd →
        e.imageA ≠ e.imageB ∧ e.distance ≠ 0 ∧ e.duration ≠ 0) ∧
    (∀ lat lon : ℝ, haversine_distance lat lon lat lon = 0) ∧
    (∀ (readExif : ExifReader) (a b : String) (lat lon t1 t2 : ℝ),
        extract_coordinates_and_timestamp readExif a = some (lat, lon, t1) →
        extract_coordinates_and_timestamp readExif b = some (lat, lon, t2) →
        process_pair readExif a b = Except.ok none) :=
  ⟨fun readExif imgs sd e h he =>
      build_speed_data_sound readExif imgs sd h e he,
   haversine_distance_self,
   fun readExif a b lat lon t1 t2 h1 h2 => by
     simp only [process_pair, h1, h2]
     simp [haversine_distance_self]⟩

/-- Witness for `speed_sample_invariant`: the `fs0` session produces the
single entry `entry0` (distinct images, nonzero distance, nonzero
duration), and the identical-coordinate `fs1` pair is skipped. -/
theorem speed_sample_invariant_witness :
    build_speed_data fs0 ["a.jpg", "b.jpg"] = Except.ok [entry0] ∧
    entry0 ∈ [entry0] ∧
    (entry0.imageA ≠ entry0.imageB ∧ entry0.distance ≠ 0 ∧
      entry0.duration ≠ 0) ∧
    haversine_distance 7 8 7 8 = 0 ∧
    extract_coordinates_and_timestamp fs1 "c.jpg" = some (10, 20, 0) ∧
    extract_coordinates_and_timestamp fs1 "d.jpg" = some (10, 20, 5) ∧
    process_pair fs1 "c.jpg" "d.jpg" = Except.ok none :=
  ⟨build_fs0, List.mem_singleton.mpr rfl,
    speed_sample_invariant.1 fs0 ["a.jpg", "b.jpg"] [entry0] entry0
      build_fs0 (List.mem_singleton.mpr rfl),
    speed_sample_invariant.2.1 7 8,
    extract_fs1_c, extract_fs1_d,
    speed_sample_invariant.2.2 fs1 "c.jpg" "d.jpg" 10 20 0 5
      extract_fs1_c extract_fs1_d⟩

/-- **C2**: when the session yields zero speed samples (every consecutive
pair skipped), `avg_speed = sum(...) / len(speed_data)` raises
`ZeroDivisionError` — an explicit, distinguishable failure — and the run
never reaches `log_average_speed_to_txt`, so no artifact line is
written. -/
theorem empty_sample_set_fails (readExif : ExifReader)
    (imgs : List String) (ts : List ℚ) (h1 : imgs ≠ []) (h2 : ts ≠ [])
    (h3 : build_speed_data readExif imgs = Except.ok []) :
    main_pipeline readExif (some imgs) (some ts) =
      Except.error PyErr.zeroDivisionError ∧
    ∀ o : SessionOutcome,
      main_pipeline readExif (some imgs) (some ts) ≠ Except.ok o := by
  have hmain : main_pipeline readExif (some imgs) (some ts) =
      Except.error PyErr.zeroDivisionError := by
    simp only [main_pipeline]
    rw [if_neg (by simp [h1, h2]), h3]
    simp
  exact ⟨hmain, fun o ho => by
    rw [hmain] at ho
    exact Except.noConfusion ho⟩

/-- Witness for `empty_sample_set_fails`: the identical-coordinate `fs1`
session. -/
theorem empty_sample_set_fails_witness :
    (["c.jpg", "d.jpg"] : List String) ≠ [] ∧
    ([0, 5] : List ℚ) ≠ [] ∧
    build_speed_data fs1 ["c.jpg", "d.jpg"] = Except.ok [] ∧
    main_pipeline fs1 (some ["c.jpg", "d.jpg"]) (some [0, 5]) =
      Except.error PyErr.zeroDivisionError :=
  ⟨by decide, by decide, build_fs1,
    (empty_sample_set_fails fs1 ["c.jpg", "d.jpg"] [0, 5] (by decide)
      (by decide) build_fs1).1⟩

/-- **C5**: with at least one speed sample, the session computes the mean
of the sample speeds, multiplies it by 1.05, and the output artifact is
exactly one line carrying that corrected value at two decimal places with
unit suffix `km/s`. -/
theorem corrected_average_logged (readExif : ExifReader)
    (imgs : List String) (ts : List ℚ) (sd : List SpeedEntry)
    (h1 : imgs ≠ []) (h2 : ts ≠ [])
    (h3 : build_speed_data readExif imgs = Except.ok sd) (h4 : sd ≠ []) :
    main_pipeline readExif (some imgs) (some ts) =
      Except.ok
        { artifact := some
            [⟨((sd.map SpeedEntry.speed).sum / (sd.length : ℝ)) * 1.05,
              2, "km/s"⟩],
          kept := (retention_cleanup imgs).1,
          deleted := (retention_cleanup imgs).2 } := by
  have hred : main_pipeline readExif (some imgs) (some ts) =
      (if sd.length = 0 then Except.error PyErr.zeroDivisionError
       else Except.ok
          { artifact := some (log_average_speed_to_txt
              ((sd.map SpeedEntry.speed).sum / (sd.length : ℝ) * (1 + 0.05))),
            kept := (retention_cleanup imgs).1,
            deleted := (retention_cleanup imgs).2 }) := by
    simp only [main_pipeline]
    rw [if_neg (by simp [h1, h2]), h3]
  rw [hred, if_neg (by simp [h4])]
  simp only [log_average_speed_to_txt]
  norm_num

/-- Witness for `corrected_average_logged`: the `fs0` session. -/
theorem corrected_average_logged_witness :
    (["a.jpg", "b.jpg"] : List String) ≠ [] ∧
    ([0, 10] : List ℚ) ≠ [] ∧
    build_speed_data fs0 ["a.jpg", "b.jpg"] = Except.ok [entry0] ∧
    ([entry0] : List SpeedEntry) ≠ [] ∧
    main_pipeline fs0 (some ["a.jpg", "b.jpg"]) (some [0, 10]) =
      Except.ok
        { artifact := some
            [⟨((([entry0] : List SpeedEntry).map SpeedEntry.speed).sum /
                (([entry0] : List SpeedEntry).length : ℝ)) * 1.05,
              2, "km/s"⟩],
          kept := (retention_cleanup ["a.jpg", "b.jpg"]).1,
          deleted := (retention_cleanup ["a.jpg", "b.jpg"]).2 } :=
  ⟨by decide, by decide, build_fs0, by simp,
    corrected_average_logged fs0 ["a.jpg", "b.jpg"] [0, 10] [entry0]
      (by decide) (by decide) build_fs0 (by simp)⟩
